import Mathlib

/-!
Verification development for the xn-backend session orchestrator.

The definitions below are a shallow embedding of the code in src/server.js
(the entrypoint run by the Dockerfile). Absolute filesystem paths are
modelled as lists of path segments (the result of splitting the path string
on the separator, without the leading empty segment). The Node path
functions used by the server (path.join, path.relative and the split on
path.sep) are modelled segment-wise: path.join concatenates its arguments
and normalizes the result, resolving "." and ".." segments and dropping
empty segments, exactly as Node does for absolute POSIX paths.
-/

namespace XnBackend

/-- Splits a string on the separator character, mirroring the splitting of a
path string on the path separator. The empty string splits to a singleton
list holding the empty string, as in JavaScript. -/
def splitAux : List Char → List Char → List String
  | [], acc => [String.mk acc.reverse]
  | c :: rest, acc =>
      if c = '/' then String.mk acc.reverse :: splitAux rest []
      else splitAux rest (c :: acc)

/-- Split a path string into its separator-delimited pieces. -/
def splitPath (s : String) : List String := splitAux s.data []

/-- One step of absolute-path normalization: empty and "." segments are
dropped, ".." removes the last segment already accepted (at the root it is a
no-op), and any other segment is appended. This is the segment-level content
of Node path normalization for an absolute path. -/
def normStep (stack : List String) (seg : String) : List String :=
  if seg = "" ∨ seg = "." then stack
  else if seg = ".." then stack.dropLast
  else stack ++ [seg]

/-- Normalize the segments of an absolute path. -/
def normAbs (segs : List String) : List String := segs.foldl normStep []

/-- Model of path.join(base, s) where base is an absolute path given as
segments and s is a string argument: the concatenation is normalized. -/
def joinPath (base : List String) (s : String) : List String :=
  normAbs (base ++ splitPath s)

/-- Decides whether the path target is equal to or a descendant of root,
segment-wise. -/
def withinRoot : List String → List String → Bool
  | [], _ => true
  | _ :: _, [] => false
  | a :: as, b :: bs => if a = b then withinRoot as bs else false

/-- Length of the common leading run of two segment lists. -/
def commonLen : List String → List String → Nat
  | a :: as, b :: bs => if a = b then commonLen as bs + 1 else 0
  | _, _ => 0

/-- Model of path.relative(base, target) on normalized absolute paths: drop
the common leading run, then one ".." per remaining base segment followed by
the remaining target segments. The result is empty exactly when the two
paths are equal. -/
def relSegs (base target : List String) : List String :=
  List.replicate (base.length - commonLen base target) ".." ++
    target.drop (commonLen base target)

/-- All leading runs of a segment list, the full list included. Used to model
recursive directory creation, which brings every intermediate directory into
existence. -/
def ancestors : List String → List (List String)
  | [] => [[]]
  | s :: rest => [] :: (ancestors rest).map (s :: ·)

/-- A segment is normal when it is not empty, not "." and not "..". Segments
produced by the file watcher and by directory names in a deployment are
normal. -/
abbrev GoodSeg (s : String) : Prop := s ≠ "" ∧ s ≠ "." ∧ s ≠ ".."

/-- All segments of a list are normal. -/
abbrev GoodSegs (l : List String) : Prop := ∀ s ∈ l, GoodSeg s

/-- The filesystem state visible to the server: the set of directories that
exist and the files with their string contents. Paths are absolute segment
lists. -/
structure FS where
  dirs : List (List String)
  files : List (List String × String)
deriving DecidableEq

/-- Model of fs.existsSync on the modelled state. -/
def existsSync (fs : FS) (p : List String) : Bool :=
  fs.dirs.any (fun d => decide (d = p)) || fs.files.any (fun e => decide (e.1 = p))

/-- Model of fs.mkdirSync with the recursive option: the directory and every
intermediate segment come into existence. The chmod call that follows it in
the source only adjusts permission bits, which the model does not track. -/
def mkdirRecursive (fs : FS) (p : List String) : FS :=
  { fs with dirs := ancestors p ++ fs.dirs }

/-- Model of fs.promises.writeFile: when the parent directory of p exists
and p itself is not a directory, the file at p now holds exactly c,
replacing any previous content. The call creates no intermediate
directories: it rejects with ENOENT when the parent directory does not
exist, and with EISDIR when the target is a directory. The result pairs the
filesystem after the call (unchanged on rejection) with the rejection, if
any. -/
def writeFile (fs : FS) (p : List String) (c : String) : FS × Option String :=
  if fs.dirs.any (fun d => decide (d = p.dropLast)) then
    if fs.dirs.any (fun d => decide (d = p)) then (fs, some "EISDIR")
    else
      ({ fs with files := (p, c) :: fs.files.filter (fun e => !decide (e.1 = p)) },
        none)
  else (fs, some "ENOENT")

/-- Model of fs.promises.readFile with the utf8 encoding: the stored string,
or none when the file does not exist (ENOENT). -/
def readFile (fs : FS) (p : List String) : Option String :=
  (fs.files.find? (fun e => decide (e.1 = p))).map (·.2)

/-- Embedding of ensureUserDir from src/server.js. usersDir is the segment
list of USER_DIR (path.join of the server directory with "users"). The
function joins the user id onto USER_DIR, creates the directory recursively
when it does not exist, and returns the directory path. It seeds no file. -/
def ensureUserDir (usersDir : List String) (fs : FS) (userId : String) :
    List String × FS :=
  if existsSync fs (joinPath usersDir userId) then (joinPath usersDir userId, fs)
  else (joinPath usersDir userId, mkdirRecursive fs (joinPath usersDir userId))

/-- The write target computed by the file:change socket handler in
src/server.js: path.join(userDir, filePath) where userDir is the result of
ensureUserDir, namely path.join(USER_DIR, userId). -/
def fileChangeTarget (usersDir : List String) (userId filePath : String) :
    List String :=
  normAbs (joinPath usersDir userId ++ splitPath filePath)

/-- Embedding of the file:change socket handler in src/server.js: it writes
the supplied content at the joined path unconditionally. The handler has no
validation branch, never rejects a path, and has no catch: when the write
itself rejects, the rejection (the second component) escapes as an
unhandled rejection and the filesystem is left as the write left it. -/
def fileChangeHandler (usersDir : List String) (userId : String) (fs : FS)
    (filePath content : String) : FS × Option String :=
  writeFile fs (fileChangeTarget usersDir userId filePath) content

/-- The read target computed by the GET /files/content endpoint in
src/server.js: path.join(USER_DIR, userId, filePath). -/
def readContentTarget (usersDir : List String) (userId filePath : String) :
    List String :=
  normAbs (usersDir ++ splitPath userId ++ splitPath filePath)

/-- Embedding of the GET /files/content endpoint in src/server.js: after the
presence check on the two query parameters (falsy values give a 400 reply,
modelled as none) the file at the joined path is read with no containment
check. A missing file gives a 404 reply, also modelled as none. -/
def readContentEndpoint (usersDir : List String) (fs : FS)
    (userId filePath : String) : Option String :=
  if userId = "" ∨ filePath = "" then none
  else readFile fs (readContentTarget usersDir userId filePath)

/-- Embedding of the GET /files endpoint in src/server.js: after the
presence check on userId, ensureUserDir is invoked for the caller-chosen id
before the directory tree is generated. The boolean reports whether the
request was accepted; the returned state is the filesystem after the call.
The endpoint consults no session registry. -/
def filesEndpoint (usersDir : List String) (fs : FS) (userId : String) :
    Bool × FS :=
  if userId = "" then (false, fs)
  else (true, (ensureUserDir usersDir fs userId).2)

/-- Index of the first occurrence of key, as an option. -/
def idxAux (key : String) : List String → Option Nat
  | [] => none
  | s :: rest => if s = key then some 0 else (idxAux key rest).map (· + 1)

/-- JavaScript Array.prototype.indexOf semantics: the index of the first
occurrence, or -1 when absent. -/
def jsIndexOf (segs : List String) (key : String) : Int :=
  match idxAux key segs with
  | some n => (n : Int)
  | none => -1

/-- The user id extracted by the watcher handler in src/server.js:
segments[segments.indexOf("users") + 1]. An out-of-range access yields
undefined, modelled as none. When "users" is absent the JavaScript index is
-1 and the access reads segments[0]. -/
def userIdOf (segs : List String) : Option String :=
  segs.get? (jsIndexOf segs "users" + 1).toNat

/-- path.join(USER_DIR, userId) as computed in the watcher handler, where
USER_DIR is itself path.join of the server directory with "users". The
extracted id is a single piece of a separator split, so it holds no
separator and joins as one segment. -/
def userDirOf (dirSegs : List String) (uid : String) : List String :=
  normAbs (normAbs (dirSegs ++ ["users"]) ++ [uid])

/-- Embedding of the watcher callback in src/server.js, up to the emit: from
the split of the absolute event path (a leading empty segment, then the
segments p), extract the user id, compute the path relative to that user
directory, and emit when both the id and the relative path are truthy.
Returns the room name and the relative path of the emitted notification, or
none when nothing is emitted. When the id access yields undefined the
subsequent path.join throws, so no emit happens, which the none branch also
covers. -/
def routeRefresh (dirSegs p : List String) : Option (String × List String) :=
  match userIdOf ("" :: p) with
  | none => none
  | some uid =>
      if uid ≠ "" ∧ relSegs (userDirOf dirSegs uid) p ≠ [] then
        some (uid, relSegs (userDirOf dirSegs uid) p)
      else none

/-- The sockets that receive the file:refresh notification, with its
relative path. io.to(room) delivers to the sockets in that room; the server
never joins a socket to any room, so each socket is only in the default room
named by its own id. active lists the ids of the connected sockets. -/
def refreshRecipients (active : List String) (dirSegs p : List String) :
    List (String × List String) :=
  match routeRefresh dirSegs p with
  | none => []
  | some (uid, rel) => if uid ∈ active then [(uid, rel)] else []

/-- Observable outcome of the connection handler in src/server.js for one
session. containerRunning: a container for the session is running at the
runtime; containerRegistered: userContainers holds an entry for the session;
terminalRegistered: userTerminals holds an entry; reachedActive: the socket
event handlers (terminal and file handlers, disconnect included) were
registered; errorEmitted: the INIT_FAILURE error event was emitted;
disconnected: socket.disconnect was called by the handler. -/
structure SessionState where
  containerRunning : Bool
  containerRegistered : Bool
  terminalRegistered : Bool
  reachedActive : Bool
  errorEmitted : Bool
  disconnected : Bool
deriving DecidableEq

/-- Embedding of the io connection handler in src/server.js. The try block
runs ensureUserDir, then startContainer (which registers the container in
userContainers before resolving), then createPty (whose spawn can throw).
The catch block logs, emits the INIT_FAILURE error and disconnects; it stops
no container and clears no registry entry. dirOk, containerOk and ptyOk say
whether each step succeeds. -/
def handleConnection (dirOk containerOk ptyOk : Bool) : SessionState :=
  if dirOk then
    if containerOk then
      if ptyOk then
        { containerRunning := true, containerRegistered := true,
          terminalRegistered := true, reachedActive := true,
          errorEmitted := false, disconnected := false }
      else
        { containerRunning := true, containerRegistered := true,
          terminalRegistered := false, reachedActive := false,
          errorEmitted := true, disconnected := true }
    else
      { containerRunning := false, containerRegistered := false,
        terminalRegistered := false, reachedActive := false,
        errorEmitted := true, disconnected := true }
  else
    { containerRunning := false, containerRegistered := false,
      terminalRegistered := false, reachedActive := false,
      errorEmitted := true, disconnected := true }

/-- Observable outcome of the disconnect handler in src/server.js.
killAttempted and stopAttempted say whether the kill call and the docker
stop command were issued; terminalsDropped and containersDropped say whether
the registry map entries were deleted; errorLogged says whether the handler
logged a failure; exceptionEscaped says whether an exception left the
handler (an unhandled rejection, since the handler has no catch). -/
structure TeardownResult where
  killAttempted : Bool
  stopAttempted : Bool
  terminalsDropped : Bool
  containersDropped : Bool
  errorLogged : Bool
  exceptionEscaped : Bool
deriving DecidableEq

/-- Embedding of the disconnect handler in src/server.js. The statements run
in order: term?.kill(), then await stopContainer(container) when a container
is registered, then the two map deletions. A synchronous throw from kill or
a rejection from stopContainer aborts the handler at that point: nothing
later runs, nothing is logged in the handler (stopContainer logs only on
success), and the exception escapes. -/
def disconnectHandler (termPresent killOk containerPresent stopOk : Bool) :
    TeardownResult :=
  if termPresent && !killOk then
    { killAttempted := true, stopAttempted := false,
      terminalsDropped := false, containersDropped := false,
      errorLogged := false, exceptionEscaped := true }
  else if containerPresent && !stopOk then
    { killAttempted := termPresent, stopAttempted := true,
      terminalsDropped := false, containersDropped := false,
      errorLogged := false, exceptionEscaped := true }
  else
    { killAttempted := termPresent, stopAttempted := containerPresent,
      terminalsDropped := true, containersDropped := true,
      errorLogged := false, exceptionEscaped := false }

/-- Embedding of stopContainer in src/server.js: it runs docker stop and
rejects whenever the command reports an error. A container unknown to the
runtime (already auto-removed, since containers run with the rm option)
makes docker stop exit nonzero with a no-such-container message, so the
promise rejects; there is no branch treating that reply as success. -/
def stopContainerOutcome (containerKnown : Bool) : Except String Unit :=
  if containerKnown then Except.ok () else Except.error "No such container"

/-- One token of the docker run command template built by startContainer in
src/server.js. The template is fixed; the container name argument and the
volume argument are the two interpolated holes. -/
inductive Tok where
  | lit : String → Tok
  | containerNameArg : String → Tok
  | bindArg : String → Tok
deriving DecidableEq

/-- The string each token denotes on the command line: the name hole renders
as user_ followed by the id, and the volume hole renders as the resolved
workspace path, a colon, and the fixed in-container path /app (no mode
suffix, so the bind is read-write by default). -/
def render : Tok → String
  | .lit s => s
  | .containerNameArg uid => "user_" ++ uid
  | .bindArg rp => rp ++ ":/app"

/-- Embedding of the command built by startContainer in src/server.js, token
by token: docker run -d, the rm option, the name option with user_ and the
id, the volume option binding the resolved path at /app, the workdir option
with /app, the image, and the long-lived no-op foreground command. -/
def startContainerTokens (uid rp : String) : List Tok :=
  [Tok.lit "docker", Tok.lit "run", Tok.lit "-d", Tok.lit "--rm",
   Tok.lit "--name", Tok.containerNameArg uid,
   Tok.lit "-v", Tok.bindArg rp,
   Tok.lit "-w", Tok.lit "/app",
   Tok.lit "node:latest",
   Tok.lit "tail", Tok.lit "-f", Tok.lit "/dev/null"]

/-- The argument following the first occurrence of a literal flag in a token
list, or none when the flag is absent. -/
def argAfterTok (flag : String) : List Tok → Option Tok
  | [] => none
  | t :: rest => if t = Tok.lit flag then rest.head? else argAfterTok flag rest

/-! Helper lemmas about path normalization and the filesystem model. -/

theorem goodSegs_normStep {stack : List String} {s : String}
    (h : GoodSegs stack) : GoodSegs (normStep stack s) := by
  by_cases h1 : s = "" ∨ s = "."
  · simpa [normStep, h1] using h
  · by_cases h2 : s = ".."
    · intro x hx
      rw [normStep, if_neg h1, if_pos h2] at hx
      exact h x (List.dropLast_subset stack hx)
    · intro x hx
      rw [normStep, if_neg h1, if_neg h2] at hx
      rcases List.mem_append.mp hx with hx | hx
      · exact h x hx
      · rw [List.mem_singleton] at hx
        subst hx
        exact ⟨fun he => h1 (Or.inl he), fun he => h1 (Or.inr he), h2⟩

theorem goodSegs_foldl (l : List String) :
    ∀ acc, GoodSegs acc → GoodSegs (List.foldl normStep acc l) := by
  induction l with
  | nil => intro acc h; exact h
  | cons s rest ih => intro acc h; exact ih _ (goodSegs_normStep h)

theorem goodSegs_normAbs (l : List String) : GoodSegs (normAbs l) :=
  goodSegs_foldl l [] (by intro s hs; simp at hs)

theorem foldl_normStep_of_good :
    ∀ l : List String, GoodSegs l → ∀ acc, List.foldl normStep acc l = acc ++ l := by
  intro l
  induction l with
  | nil => intro _ acc; simp
  | cons s rest ih =>
    intro hl acc
    have hs : GoodSeg s := hl s (List.mem_cons_self _ _)
    have hrest : GoodSegs rest := fun x hx => hl x (List.mem_cons_of_mem _ hx)
    have hstep : normStep acc s = acc ++ [s] := by
      rw [normStep, if_neg ?hc, if_neg hs.2.2]
      case hc => rintro (h | h); exacts [hs.1 h, hs.2.1 h]
    show List.foldl normStep (normStep acc s) rest = acc ++ s :: rest
    rw [hstep, ih hrest]
    simp

theorem normAbs_of_good (l : List String) (h : GoodSegs l) : normAbs l = l := by
  rw [normAbs, foldl_normStep_of_good l h []]
  simp

theorem normAbs_idem (l : List String) : normAbs (normAbs l) = normAbs l :=
  normAbs_of_good _ (goodSegs_normAbs l)

theorem normAbs_append_norm (a b : List String) :
    normAbs (normAbs a ++ b) = normAbs (a ++ b) := by
  show List.foldl normStep [] (normAbs a ++ b) = List.foldl normStep [] (a ++ b)
  rw [List.foldl_append, List.foldl_append]
  congr 1
  exact normAbs_idem a

theorem commonLen_append (a r : List String) : commonLen a (a ++ r) = a.length := by
  induction a with
  | nil => cases r <;> rfl
  | cons s as ih => simp [commonLen, ih]

theorem relSegs_append (a r : List String) : relSegs a (a ++ r) = r := by
  rw [relSegs, commonLen_append]
  simp [List.drop_left]

theorem idxAux_append (key : String) (r : List String) :
    ∀ l : List String, key ∉ l → idxAux key (l ++ key :: r) = some l.length := by
  intro l
  induction l with
  | nil => intro _; simp [idxAux]
  | cons a as ih =>
    intro h
    have ha : ¬ a = key := by
      intro e; exact h (by simp [e])
    have has : key ∉ as := fun hx => h (List.mem_cons_of_mem _ hx)
    simp [idxAux, ha, ih has]

theorem userIdOf_eval (dirSegs rest : List String) (s1 : String)
    (husers : "users" ∉ dirSegs) :
    userIdOf ("" :: dirSegs ++ "users" :: s1 :: rest) = some s1 := by
  have hne : "users" ∉ ("" :: dirSegs) := by
    intro h
    rcases List.mem_cons.mp h with h | h
    · exact absurd h (by decide)
    · exact husers h
  have hidx : idxAux "users" (("" :: dirSegs) ++ "users" :: s1 :: rest) =
      some ("" :: dirSegs).length := idxAux_append _ _ _ hne
  have hlen : ((("" :: dirSegs).length : Int) + 1).toNat = dirSegs.length + 2 := by
    simp only [List.length_cons]
    omega
  have hsplit : ("" :: dirSegs ++ "users" :: s1 :: rest : List String) =
      ("" :: (dirSegs ++ ["users"])) ++ s1 :: rest := by
    simp
  have hlen2 : ("" :: (dirSegs ++ ["users"])).length = dirSegs.length + 2 := by
    simp [List.length_append]
    try omega
  simp only [userIdOf, jsIndexOf, hidx]
  rw [hlen, List.get?_eq_getElem?, hsplit,
    List.getElem?_append_right hlen2.le, hlen2]
  simp

theorem self_mem_ancestors : ∀ p : List String, p ∈ ancestors p := by
  intro p
  induction p with
  | nil => simp [ancestors]
  | cons s rest ih =>
    exact List.mem_cons_of_mem _ (List.mem_map_of_mem _ ih)

theorem existsSync_mkdirRecursive (fs : FS) (p : List String) :
    existsSync (mkdirRecursive fs p) p = true := by
  simp [existsSync, mkdirRecursive, List.any_append]
  exact Or.inl (Or.inl (self_mem_ancestors p))

theorem readContentTarget_eq (usersDir : List String) (uid p : String) :
    readContentTarget usersDir uid p = fileChangeTarget usersDir uid p := by
  rw [readContentTarget, fileChangeTarget, joinPath, normAbs_append_norm]

/-! The claims. -/

/-- Claim C1 (status: the code contradicts it). The claim says that the
file:change write handler and the GET /files/content read endpoint reject
client paths that resolve outside the workspace root, in particular inputs
holding parent-directory segments such as ../../etc/passwd. The code of
src/server.js joins the client path onto the root with no containment check
at all. Evaluated at the deployed layout (server directory /user, workspace
/user/users/abc, on a host filesystem where the outside directory /user/etc
exists): the write target for ../../etc/passwd is /user/etc/passwd, which
is not within the root; the write handler materializes the supplied content
at that outside path, raising no error and rejecting nothing; and the read
endpoint happily serves a file lying outside the root. -/
theorem claimC1 :
    withinRoot (joinPath ["user", "users"] "abc")
        (fileChangeTarget ["user", "users"] "abc" "../../etc/passwd") = false ∧
      fileChangeTarget ["user", "users"] "abc" "../../etc/passwd" =
        ["user", "etc", "passwd"] ∧
      (fileChangeHandler ["user", "users"] "abc"
          ⟨[[], ["user"], ["user", "etc"], ["user", "users"],
            ["user", "users", "abc"]], []⟩
          "../../etc/passwd" "pwned").2 = none ∧
      readFile (fileChangeHandler ["user", "users"] "abc"
          ⟨[[], ["user"], ["user", "etc"], ["user", "users"],
            ["user", "users", "abc"]], []⟩
          "../../etc/passwd" "pwned").1 ["user", "etc", "passwd"] = some "pwned" ∧
      readContentEndpoint ["user", "users"]
          ⟨[], [(["user", "etc", "passwd"], "secret")]⟩ "abc"
          "../../etc/passwd" = some "secret" := by
  decide

/-- Claim C2 (confirmed). A change event under the workspace of session s1
is emitted to the room named s1 only: when s1 is connected it is delivered
exactly to s1, with the path made relative to the workspace root of s1, and
a different session s2 never receives it; when the owning session is not
registered the event is dropped silently (the room is empty). Hypotheses:
the server directory consists of normal segments and holds no segment named
users (true of the deployed layout /user), the session id is a normal
segment, and the event path lies strictly under the workspace of s1. -/
theorem claimC2 (dirSegs rest active : List String) (s1 s2 : String)
    (hbase : GoodSegs dirSegs) (husers : "users" ∉ dirSegs)
    (hs1 : GoodSeg s1) (hrest : rest ≠ []) (hne : s2 ≠ s1)
    (p : List String) (hp : p = dirSegs ++ "users" :: s1 :: rest) :
    refreshRecipients active dirSegs p =
        (if s1 ∈ active then [(s1, rest)] else []) ∧
      ∀ q ∈ refreshRecipients active dirSegs p, q.1 ≠ s2 := by
  subst hp
  have huid : userIdOf ("" :: (dirSegs ++ "users" :: s1 :: rest)) = some s1 :=
    userIdOf_eval dirSegs rest s1 husers
  have hgood : GoodSegs ((dirSegs ++ ["users"]) ++ [s1]) := by
    intro x hx
    rcases List.mem_append.mp hx with hx | hx
    · rcases List.mem_append.mp hx with hx | hx
      · exact hbase x hx
      · rw [List.mem_singleton] at hx
        subst hx
        exact ⟨by decide, by decide, by decide⟩
    · rw [List.mem_singleton] at hx
      subst hx
      exact hs1
  have hdir : userDirOf dirSegs s1 = (dirSegs ++ ["users"]) ++ [s1] := by
    rw [userDirOf, normAbs_append_norm, normAbs_of_good _ hgood]
  have hassoc : dirSegs ++ "users" :: s1 :: rest =
      ((dirSegs ++ ["users"]) ++ [s1]) ++ rest := by
    simp
  have hrel : relSegs (userDirOf dirSegs s1) (dirSegs ++ "users" :: s1 :: rest) =
      rest := by
    rw [hdir, hassoc, relSegs_append]
  have h1 : refreshRecipients active dirSegs (dirSegs ++ "users" :: s1 :: rest) =
      if s1 ∈ active then [(s1, rest)] else [] := by
    simp [refreshRecipients, routeRefresh, huid, hrel, hs1.1, hrest]
  refine ⟨h1, ?_⟩
  intro q hq
  rw [h1] at hq
  by_cases hm : s1 ∈ active
  · rw [if_pos hm, List.mem_singleton] at hq
    subst hq
    exact Ne.symm hne
  · rw [if_neg hm] at hq
    simp at hq

/-- Witness for claim C2 at a concrete deployment: the server directory is
/user, sessions abc and dfe are connected, and a change event arrives for
/user/users/abc/main.js. It is delivered exactly to abc with relative path
main.js; in particular dfe receives nothing. -/
theorem claimC2_witness :
    refreshRecipients ["abc", "dfe"] ["user"]
      ["user", "users", "abc", "main.js"] = [("abc", ["main.js"])] := by
  have h := claimC2 ["user"] ["main.js"] ["abc", "dfe"] "abc" "dfe"
    (by decide) (by decide) (by decide) (by decide) (by decide)
    ["user", "users", "abc", "main.js"] rfl
  simpa using h.1

/-- Claim C3 (status: the code contradicts it). The claim says that when a
step of session initialization fails, the client receives an
initialization-failure error and is disconnected, the session never reaches
Active, and any container acquired by a prior step is rolled back. In
src/server.js the catch block of the connection handler emits the error and
disconnects but stops nothing: when the pty attach step throws after
startContainer succeeded, the container keeps running and its registry entry
survives, so a container owned by the failed session exists afterward. -/
theorem claimC3 :
    (handleConnection true true false).reachedActive = false ∧
      (handleConnection true true false).errorEmitted = true ∧
      (handleConnection true true false).disconnected = true ∧
      (handleConnection true true false).containerRunning = true ∧
      (handleConnection true true false).containerRegistered = true ∧
      (handleConnection true false true).containerRunning = false := by
  decide

/-- Claim C4 (status: the code contradicts it). The claim says the three
teardown steps on disconnect (kill terminal, stop and remove container, drop
the registry entries) are each attempted even when an earlier one fails, and
that failures are logged rather than re-raised. In src/server.js the
disconnect handler awaits stopContainer with no catch: when the stop command
fails the rejection escapes the handler, the two registry deletions never
run, and nothing is logged in the handler. -/
theorem claimC4 :
    (disconnectHandler true true true false).stopAttempted = true ∧
      (disconnectHandler true true true false).terminalsDropped = false ∧
      (disconnectHandler true true true false).containersDropped = false ∧
      (disconnectHandler true true true false).errorLogged = false ∧
      (disconnectHandler true true true false).exceptionEscaped = true := by
  decide

/-- Claim C5 (status: the code contradicts it). The claim says container
teardown treats an already-stopped or not-found reply from the runtime as
success, completing without error and still releasing the in-memory handle.
In src/server.js stopContainer rejects on every command error, a container
already auto-removed (containers run with the rm option) makes docker stop
report no such container, and in the disconnect path that rejection aborts
the handler before the registry entry for the container is dropped. -/
theorem claimC5 :
    stopContainerOutcome false = Except.error "No such container" ∧
      (disconnectHandler true true true false).containersDropped = false ∧
      (disconnectHandler true true true false).exceptionEscaped = true :=
  ⟨rfl, rfl, rfl⟩

/-- Counterexample for claim C6: the docker run command that src/server.js
builds for a concrete session has no memory option, no cpu option and no
security option at all, so the container is not created with a memory
ceiling, a CPU share limit, or privilege escalation disabled. The rendered
command is listed in full. -/
theorem claimC6_counterexample :
    argAfterTok "--memory" (startContainerTokens "abc123" "/user/users/abc123") = none ∧
      argAfterTok "-m" (startContainerTokens "abc123" "/user/users/abc123") = none ∧
      argAfterTok "--cpu-shares" (startContainerTokens "abc123" "/user/users/abc123") = none ∧
      argAfterTok "--cpus" (startContainerTokens "abc123" "/user/users/abc123") = none ∧
      argAfterTok "--security-opt" (startContainerTokens "abc123" "/user/users/abc123") = none ∧
      (startContainerTokens "abc123" "/user/users/abc123").map render =
        ["docker", "run", "-d", "--rm", "--name", "user_abc123", "-v",
         "/user/users/abc123:/app", "-w", "/app", "node:latest", "tail", "-f",
         "/dev/null"] := by
  decide

/-- Claim C6 as amended: every container created for a session binds the
session workspace read-write at the fixed in-container path /app (the volume
argument is the resolved path, a colon and /app, with no mode suffix), under
the deterministic name user_ followed by the session id, with auto-removal
on stop; but no memory ceiling, no CPU share limit and no security option
disabling privilege escalation is applied. -/
theorem claimC6_amended (uid rp : String) :
    (argAfterTok "-v" (startContainerTokens uid rp)).map render =
        some (rp ++ ":/app") ∧
      (argAfterTok "--name" (startContainerTokens uid rp)).map render =
        some ("user_" ++ uid) ∧
      (argAfterTok "-w" (startContainerTokens uid rp)).map render = some "/app" ∧
      Tok.lit "--rm" ∈ startContainerTokens uid rp ∧
      argAfterTok "--memory" (startContainerTokens uid rp) = none ∧
      argAfterTok "-m" (startContainerTokens uid rp) = none ∧
      argAfterTok "--cpu-shares" (startContainerTokens uid rp) = none ∧
      argAfterTok "--cpus" (startContainerTokens uid rp) = none ∧
      argAfterTok "--security-opt" (startContainerTokens uid rp) = none := by
  refine ⟨?_, ?_, ?_, ?_, ?_, ?_, ?_, ?_, ?_⟩ <;>
    simp [startContainerTokens, argAfterTok, render]

/-- Counterexample for claim C7: provisioning a fresh workspace on an empty
filesystem creates the directory but seeds no file whatsoever, so the new
workspace does not contain a seeded default file, let alone exactly one. -/
theorem claimC7_counterexample :
    ((ensureUserDir ["user", "users"] ⟨[], []⟩ "abc123").2).files = [] ∧
      joinPath ["user", "users"] "abc123" ∈
        ((ensureUserDir ["user", "users"] ⟨[], []⟩ "abc123").2).dirs := by
  decide

/-- Claim C7 as amended: on first provisioning (the directory did not
previously exist) the provisioner creates the workspace directory with its
intermediate segments, and leaves the set of files untouched: no default
file is seeded. The seeding described by the spec exists only in the draft
variants, not in src/server.js. -/
theorem claimC7_amended (usersDir : List String) (fs : FS) (uid : String)
    (h : existsSync fs (joinPath usersDir uid) = false) :
    joinPath usersDir uid ∈ ((ensureUserDir usersDir fs uid).2).dirs ∧
      ((ensureUserDir usersDir fs uid).2).files = fs.files := by
  simp [ensureUserDir, h, mkdirRecursive]
  exact Or.inl (self_mem_ancestors _)

/-- Witness for the amended claim C7 at a concrete input: provisioning
abc123 on an empty filesystem creates the workspace directory and leaves the
file set empty. -/
theorem claimC7_amended_witness :
    joinPath ["user", "users"] "zzz9" ∈
        ((ensureUserDir ["user", "users"] ⟨[], []⟩ "zzz9").2).dirs ∧
      ((ensureUserDir ["user", "users"] ⟨[], []⟩ "zzz9").2).files =
        (⟨[], []⟩ : FS).files :=
  claimC7_amended ["user", "users"] ⟨[], []⟩ "zzz9" (by decide)

/-- Claim C8 (confirmed). The workspace provisioner is idempotent: calling
it twice with the same session id returns the same workspace root both
times, and the second call leaves the filesystem state exactly as the first
call left it: nothing is duplicated, overwritten or cleared. -/
theorem claimC8 (usersDir : List String) (fs : FS) (uid : String) :
    ensureUserDir usersDir ((ensureUserDir usersDir fs uid).2) uid =
      ((ensureUserDir usersDir fs uid).1, (ensureUserDir usersDir fs uid).2) := by
  by_cases h : existsSync fs (joinPath usersDir uid) = true
  · simp [ensureUserDir, h]
  · have h' : existsSync fs (joinPath usersDir uid) = false := by
      simpa using h
    have h2 := existsSync_mkdirRecursive fs (joinPath usersDir uid)
    simp [ensureUserDir, h', h2]

/-- Counterexample for claim C9: on a freshly provisioned workspace for
session abc (the directory exists and is empty), a file:change write of hi
at the relative path sub/new.txt rejects with ENOENT: the parent directory
sub does not exist and fs.promises.writeFile creates no intermediate
directories. The handler has no catch, so nothing is written, and the
subsequent GET /files/content read answers 404 (none) rather than the
written content: the round trip fails for this path. -/
theorem claimC9_counterexample :
    (fileChangeHandler ["user", "users"] "abc"
        ⟨[[], ["user"], ["user", "users"], ["user", "users", "abc"]], []⟩
        "sub/new.txt" "hi").2 = some "ENOENT" ∧
      readContentEndpoint ["user", "users"]
        (fileChangeHandler ["user", "users"] "abc"
          ⟨[[], ["user"], ["user", "users"], ["user", "users", "abc"]], []⟩
          "sub/new.txt" "hi").1 "abc" "sub/new.txt" = none ∧
      readContentEndpoint ["user", "users"]
        (fileChangeHandler ["user", "users"] "abc"
          ⟨[[], ["user"], ["user", "users"], ["user", "users", "abc"]], []⟩
          "sub/new.txt" "hi").1 "abc" "sub/new.txt" ≠ some "hi" := by
  decide

/-- Claim C9 as amended: for every session, relative path and content such
that the parent directory of the resolved write target exists and the
target is not itself a directory, a file:change write followed by a GET
/files/content read of the same path raises no error and returns exactly
the written content: the two handlers join the path onto the same workspace
root (path.join of the root then the path, versus one three-argument
path.join), and the joined targets coincide after normalization. When the
parent directory is missing the write rejects with ENOENT, nothing is
written and the read answers 404 (the counterexample). The first two
hypotheses only state that the two request parameters are present (falsy
parameters make the endpoint answer 400 before reading). -/
theorem claimC9 (usersDir : List String) (fs : FS) (uid p c : String)
    (h1 : uid ≠ "") (h2 : p ≠ "")
    (hparent : (fileChangeTarget usersDir uid p).dropLast ∈ fs.dirs)
    (hnotdir : fileChangeTarget usersDir uid p ∉ fs.dirs) :
    (fileChangeHandler usersDir uid fs p c).2 = none ∧
      readContentEndpoint usersDir (fileChangeHandler usersDir uid fs p c).1
        uid p = some c := by
  have hany : fs.dirs.any
      (fun d => decide (d = (fileChangeTarget usersDir uid p).dropLast)) = true := by
    rw [List.any_eq_true]
    exact ⟨_, hparent, by simp⟩
  have hany2 : fs.dirs.any
      (fun d => decide (d = fileChangeTarget usersDir uid p)) = false := by
    cases hcase : fs.dirs.any (fun d => decide (d = fileChangeTarget usersDir uid p)) with
    | false => rfl
    | true =>
      rw [List.any_eq_true] at hcase
      obtain ⟨d, hd, he⟩ := hcase
      rw [decide_eq_true_eq] at he
      exact absurd (he ▸ hd) hnotdir
  constructor
  · simp [fileChangeHandler, writeFile, hany, hany2]
  · rw [readContentEndpoint, if_neg (by simp [h1, h2])]
    rw [readContentTarget_eq]
    show readFile ((writeFile fs (fileChangeTarget usersDir uid p) c).1)
        (fileChangeTarget usersDir uid p) = some c
    simp [writeFile, hany, hany2, readFile, List.find?_cons]

/-- Witness for the amended claim C9 at a concrete input: on a workspace
whose directory exists, writing hello to index.js in the workspace of
session abc raises no error and reading it back returns hello. -/
theorem claimC9_witness :
    (fileChangeHandler ["user", "users"] "abc"
        ⟨[["user", "users", "abc"]], []⟩ "index.js" "hello").2 = none ∧
      readContentEndpoint ["user", "users"]
        (fileChangeHandler ["user", "users"] "abc"
          ⟨[["user", "users", "abc"]], []⟩ "index.js" "hello").1
        "abc" "index.js" = some "hello" :=
  claimC9 ["user", "users"] ⟨[["user", "users", "abc"]], []⟩ "abc" "index.js"
    "hello" (by decide) (by decide) (by decide) (by decide)

/-- Claim C10 (confirmed). The GET /files endpoint, for any nonempty
caller-chosen userId whose workspace directory does not yet exist, creates
that directory on disk as a side effect before listing. The endpoint model
consults no session registry at all, so this happens whether or not a
session with that id is connected. -/
theorem claimC10 (usersDir : List String) (fs : FS) (uid : String)
    (h1 : uid ≠ "") (h2 : existsSync fs (joinPath usersDir uid) = false) :
    joinPath usersDir uid ∈ ((filesEndpoint usersDir fs uid).2).dirs := by
  simp [filesEndpoint, h1, ensureUserDir, h2, mkdirRecursive]
  exact Or.inl (self_mem_ancestors _)

/-- Witness for claim C10 at a concrete input: a listing request for the
never-connected id guest42 on an empty filesystem creates the directory
/user/users/guest42. -/
theorem claimC10_witness :
    joinPath ["user", "users"] "guest42" ∈
      ((filesEndpoint ["user", "users"] ⟨[], []⟩ "guest42").2).dirs :=
  claimC10 ["user", "users"] ⟨[], []⟩ "guest42" (by decide) (by decide)

end XnBackend
